import Mathlib

/-
Shallow embedding of the Scene Segmentation & Layout Planning Engine of
`src/agents/scene_planner.py` (class `ScenePlanningAgent`), together with the
data model of `src/models.py` that it manipulates.

Modelling conventions:
* Python `datetime` timestamps are modelled as integers (seconds); the
  `timedelta(minutes=30)` scene-break threshold becomes the integer 1800.
* Python `float` tension arithmetic is modelled over `ℚ`; every constant in
  the source (0.2, 0.3, 0.4, 0.6, 0.7, 0.8, 1.0) and every sum of them that
  the code compares against a threshold is represented exactly.
* Python truthiness of optional strings (`if event.location_id:` is false for
  both `None` and `""`) is modelled by `optTruthy`.
* The Python `set` used for `main_characters` is modelled as a duplicate-free
  list in insertion order (`insertUniq`); no claim depends on the iteration
  order of the set, only on its cardinality and membership.
* `sorted(events, key=lambda e: e.timestamp)` is modelled by the stable
  `List.mergeSort` on the timestamp order.
* Python `raise ValueError(...)` is modelled by `Except.error`; the one
  partial-function use of `max()` on a possibly-empty list inside
  `_create_single_panel` is modelled by `Option` (`none` = the `ValueError`
  Python would raise on an empty sequence).
* Pydantic model fields that the planner never reads or writes (stats,
  equipment, visual prompts, image paths, ...) are omitted from the records.
-/

/-- Python's substring test `needle in hay` restricted to the exact
character sequences: does `needle` occur as a prefix of `hay`? -/
def prefixMatches : List Char → List Char → Bool
  | [], _ => true
  | _ :: _, [] => false
  | a :: as, b :: bs => a == b && prefixMatches as bs

/-- Python's substring test `needle in hay` on character lists. -/
def infixMatches (needle : List Char) : List Char → Bool
  | [] => needle.isEmpty
  | c :: rest => prefixMatches needle (c :: rest) || infixMatches needle rest

/-- Python's `needle in hay` on strings. -/
def strContainsSub (hay needle : String) : Bool :=
  infixMatches needle.toList hay.toList

/-- Python's `str.lower()` (ASCII case folding).  Written on the character
list because the library's `String.toLower` is defined by well-founded
recursion over byte positions and does not reduce in the kernel. -/
def strToLower (s : String) : String := String.mk (s.data.map Char.toLower)

/-- Python's `s.split(sep)[0]` for a one-character separator: the prefix of
the string up to the first occurrence of the separator. -/
def firstSegment (sep : Char) (s : String) : String :=
  String.mk (s.data.takeWhile (fun c => c ≠ sep))

/-- Python truthiness of an optional string: `None` and `""` are falsy. -/
def optTruthy : Option String → Bool
  | none => false
  | some s => !(s == "")

/-- Python's `x if x else None` idiom on optional strings. -/
def truthyOrNone (o : Option String) : Option String :=
  if optTruthy o then o else none

/-- `EventType` from `src/models.py`. -/
inductive EventType where
  | dialogue
  | action
  | combat
  | roll
  | narration
  | scene_transition
deriving DecidableEq

/-- `Event` from `src/models.py` (fields the planner reads). -/
structure Event where
  id : String
  timestamp : Int
  event_type : EventType
  description : String
  participants : List String
  location_id : Option String
  dialogue_content : Option String
  speaker_id : Option String
deriving DecidableEq

/-- `Character` from `src/models.py` (fields the planner reads). -/
structure Character where
  id : String
  name : String
deriving DecidableEq

/-- `Location` from `src/models.py` (fields the planner reads or writes). -/
structure Location where
  id : String
  name : String
  description : Option String
deriving DecidableEq

/-- `Scene` from `src/models.py`. -/
structure Scene where
  id : String
  title : String
  description : String
  start_time : Int
  end_time : Int
  location_id : String
  events : List String
  main_characters : List String
  scene_type : String
  dramatic_tension : ℚ
deriving DecidableEq

/-- `Panel` from `src/models.py` (fields the planner reads or writes). -/
structure Panel where
  id : String
  scene_id : String
  panel_number : Nat
  panel_type : String
  description : String
  characters : List String
  dialogue : Option String
  narration : Option String
deriving DecidableEq

/-- `ComicPage` from `src/models.py` (fields the planner reads or writes). -/
structure ComicPage where
  id : String
  mission_id : String
  page_number : Nat
  panels : List Panel
deriving DecidableEq

/-- `Mission` from `src/models.py` (fields the planner reads or writes). -/
structure Mission where
  id : String
  characters : List Character
  locations : List Location
  events : List Event
  scenes : List Scene
  pages : List ComicPage
deriving DecidableEq

/-- The `current_scene_info` dictionary of `_group_events_into_scenes`. -/
structure SceneInfo where
  stype : String
  location : Option String
  main_characters : List String
  tension_level : ℚ
deriving DecidableEq

/-- Add an element to a Python set modelled as a duplicate-free list in
insertion order. -/
def insertUniq (x : String) (l : List String) : List String :=
  if x ∈ l then l else l ++ [x]

/-- `_determine_scene_type` (scene_planner.py lines 124-143). -/
def determine_scene_type (e : Event) : String :=
  match e.event_type with
  | .combat => "combat"
  | .roll => "action"
  | .dialogue => "dialogue"
  | .action =>
    if (["attack", "cast", "fight", "battle", "damage"] : List String).any
        (fun k => strContainsSub (strToLower e.description) k) then "combat"
    else if (["move", "jump", "climb", "run", "fly"] : List String).any
        (fun k => strContainsSub (strToLower e.description) k) then "action"
    else "dialogue"
  | _ => "dialogue"

/-- High-tension keyword table of `_calculate_event_tension`. -/
def high_tension_keywords : List String :=
  ["death", "die", "kill", "destroy", "final", "last"]

/-- Medium-tension keyword table of `_calculate_event_tension`. -/
def medium_tension_keywords : List String :=
  ["attack", "fight", "battle", "danger", "threat"]

/-- The `for keyword in kws: if keyword in description: tension += bonus;
break` loop of `_calculate_event_tension`: the bonus is added once at the
first matching keyword, never again. -/
def keywordBonus (description : String) (kws : List String) (bonus : ℚ) : ℚ :=
  match kws.find? (fun k => strContainsSub description k) with
  | some _ => bonus
  | none => 0

/-- Base tension by event type (`_calculate_event_tension` lines 150-157). -/
def baseTension (t : EventType) : ℚ :=
  match t with
  | .combat => 0.8
  | .action => 0.6
  | .roll => 0.4
  | .dialogue => 0.2
  | _ => 0

/-- Dramatic-dialogue check of `_calculate_event_tension` lines 176-178. -/
def dramaticDialogue (description : String) : Bool :=
  (["\"", "says", "shouts", "whispers"] : List String).any
      (fun m => strContainsSub description m) &&
  (["no!", "help!", "stop!", "wait!"] : List String).any
      (fun w => strContainsSub description w)

/-- `_calculate_event_tension` (scene_planner.py lines 145-180). -/
def calculate_event_tension (e : Event) : ℚ :=
  let description := strToLower e.description
  let tension := baseTension e.event_type
    + keywordBonus description high_tension_keywords 0.3
    + keywordBonus description medium_tension_keywords 0.2
    + (if dramaticDialogue description then 0.3 else 0)
  min tension 1

/-- `timedelta(minutes=30)` in seconds. -/
def scene_break_threshold : Int := 1800

/-- The fresh `current_scene_info` dictionary. -/
def initInfo : SceneInfo :=
  { stype := "dialogue", location := none, main_characters := [], tension_level := 0 }

/-- The `should_break` decision of `_group_events_into_scenes` lines 67-85,
evaluated against the last absorbed event of a non-empty accumulator. -/
def shouldBreak (info : SceneInfo) (last : Event) (e : Event) : Bool :=
  (scene_break_threshold < e.timestamp - last.timestamp) ||
  (optTruthy e.location_id && optTruthy info.location &&
    !(e.location_id == info.location)) ||
  (let new_scene_type := determine_scene_type e
   !(new_scene_type == info.stype) &&
   !(info.stype == "dialogue" && new_scene_type == "action"))

/-- Absorbing one event into the accumulator
(`_group_events_into_scenes` lines 98-116). -/
def absorb (info : SceneInfo) (e : Event) : SceneInfo :=
  { stype := determine_scene_type e
    location := if optTruthy e.location_id then e.location_id else info.location
    main_characters :=
      e.participants.foldl (fun acc p => insertUniq p acc)
        (if optTruthy e.speaker_id then
          insertUniq (e.speaker_id.getD "") info.main_characters
        else info.main_characters)
    tension_level := max info.tension_level (calculate_event_tension e) }

/-- The event loop of `_group_events_into_scenes` (lines 65-121): the
accumulator is the pair of the current member list `cur` and the current
`SceneInfo`; a break emits the accumulator and restarts from the fresh one. -/
def groupAux : List Event → List Event → SceneInfo → List (SceneInfo × List Event)
  | [], cur, info => if cur = [] then [] else [(info, cur)]
  | e :: rest, cur, info =>
    match cur.getLast? with
    | none => groupAux rest (cur ++ [e]) (absorb info e)
    | some last =>
      if shouldBreak info last e then
        (info, cur) :: groupAux rest [e] (absorb initInfo e)
      else
        groupAux rest (cur ++ [e]) (absorb info e)

/-- `_group_events_into_scenes` (scene_planner.py lines 49-122). -/
def group_events_into_scenes (events : List Event) : List (SceneInfo × List Event) :=
  groupAux events [] initInfo

/-- Insert an event into a timestamp-sorted list, before the first event
with a timestamp not smaller than its own. -/
def insertByTime (x : Event) : List Event → List Event
  | [] => [x]
  | y :: ys =>
    if x.timestamp ≤ y.timestamp then x :: y :: ys
    else y :: insertByTime x ys

/-- `sorted(mission.events, key=lambda e: e.timestamp)` — stable ascending
sort by timestamp, realised as stable insertion sort (the library merge
sort is defined by well-founded recursion and does not reduce in the
kernel). -/
def sortEvents (events : List Event) : List Event :=
  events.foldr insertByTime []

/-- Python's `\w` character class (ASCII): letters, digits, underscore. -/
def isWordChar (c : Char) : Bool := c.isAlphanum || c == '_'

/-- Python's `\s` character class (ASCII whitespace). -/
def isSpaceChar (c : Char) : Bool :=
  c == ' ' || c == '\t' || c == '\n' || c == '\r' || c == '\x0b' || c == '\x0c'

/-- Try the regex `vs\s+(\w+)` anchored at the head of the character list;
returns the captured group. -/
def matchVsAt : List Char → Option (List Char)
  | 'v' :: 's' :: rest =>
    let spaces := rest.takeWhile isSpaceChar
    if spaces = [] then none
    else
      let word := (rest.dropWhile isSpaceChar).takeWhile isWordChar
      if word = [] then none else some word
  | _ => none

/-- `re.search(r'vs\s+(\w+)', s)`: the captured group of the leftmost
match. -/
def searchVs : List Char → Option (List Char)
  | [] => none
  | c :: rest =>
    match matchVsAt (c :: rest) with
    | some w => some w
    | none => searchVs rest

/-- The combat branch of `_generate_scene_title` (lines 236-248): scan the
events for the first combat event whose description matches one of the
specific title rules. -/
def combatTitleSearch : List Event → Option String
  | [] => none
  | e :: rest =>
    if e.event_type = EventType.combat then
      match searchVs e.description.toList with
      | some w => some ("Battle Against " ++ String.mk w)
      | none =>
        if strContainsSub (strToLower e.description) "kraken" then
          some "Battle with the Elder Kraken"
        else if strContainsSub (strToLower e.description) "priest" then
          some "Confronting the Cultists"
        else combatTitleSearch rest
    else combatTitleSearch rest

/-- The action branch of `_generate_scene_title` (lines 252-259). -/
def actionTitleSearch : List Event → Option String
  | [] => none
  | e :: rest =>
    if strContainsSub (strToLower e.description) "portal" then
      some "Through the Portal"
    else if strContainsSub (strToLower e.description) "ship" then
      some "Aboard the Ship"
    else if strContainsSub (strToLower e.description) "underwater" then
      some "Underwater Struggle"
    else actionTitleSearch rest

/-- The dialogue branch of `_generate_scene_title` (lines 265-271). -/
def dialogueTitleSearch : List Event → Option String
  | [] => none
  | e :: rest =>
    if e.event_type = EventType.dialogue then
      if strContainsSub (strToLower e.description) "greetings" then
        some "Mission Briefing"
      else if strContainsSub (strToLower e.description) "gibbulous" then
        some "Gatekeeper's Instructions"
      else dialogueTitleSearch rest
    else dialogueTitleSearch rest

/-- `_generate_scene_title` (scene_planner.py lines 230-275).  The final
else-branch reads `scene_info.get('index', 'Unknown')`; the scene-info
dictionary never carries an `index` key, so the default is used. -/
def generate_scene_title (info : SceneInfo) (events : List Event) : String :=
  if info.stype = "combat" then
    (combatTitleSearch events).getD "Combat Encounter"
  else if info.stype = "action" then
    (actionTitleSearch events).getD "Action Sequence"
  else if info.stype = "dialogue" then
    (dialogueTitleSearch events).getD "Character Interaction"
  else
    "Scene Unknown"

/-- The key-event line contributed by one event in
`_generate_scene_description` (lines 303-309). -/
def keyEventLine (e : Event) : Option String :=
  if e.event_type = EventType.combat ∨ e.event_type = EventType.action then
    some (firstSegment '\n' e.description)
  else if e.event_type = EventType.dialogue ∧ optTruthy e.dialogue_content then
    if (e.dialogue_content.getD "").length < 100 then
      some ("\"" ++ e.dialogue_content.getD "" ++ "\"")
    else none
  else none

/-- `_generate_scene_description` (scene_planner.py lines 277-315), reading
the mission's character and location tables as they stand at call time. -/
def generate_scene_description (info : SceneInfo) (events : List Event)
    (characters : List Character) (locations : List Location) : String :=
  let locationLines : List String :=
    if optTruthy info.location then
      match locations.find? (fun l => l.id = info.location.getD "") with
      | some loc =>
        ["Setting: " ++ loc.name] ++
          (if optTruthy loc.description then [loc.description.getD ""] else [])
      | none => []
    else []
  let charNames : List String :=
    info.main_characters.filterMap
      (fun cid => (characters.find? (fun c => c.id = cid)).map Character.name)
  let charLines : List String :=
    if info.main_characters ≠ [] ∧ charNames ≠ [] then
      ["Main characters: " ++ String.intercalate ", " charNames]
    else []
  let keyEvents : List String := events.filterMap keyEventLine
  let keyLines : List String :=
    if keyEvents ≠ [] then "Key events:" :: keyEvents.take 3 else []
  String.intercalate "\n" (locationLines ++ charLines ++ keyLines)

/-- `_create_scene_from_events` (scene_planner.py lines 182-228).  Returns
the created scene together with the mission's location list, to which a
synthesized placeholder location has been appended when no event of the
group supplied one (the Python code mutates `mission.locations` in place).
Raising `ValueError` on an empty group is modelled by `Except.error`. -/
def create_scene_from_events (scene_index : Nat) (info : SceneInfo)
    (events : List Event) (characters : List Character)
    (locations : List Location) : Except String (Scene × List Location) :=
  match events with
  | [] => .error "Cannot create scene from empty events list"
  | e0 :: rest =>
    let title := generate_scene_title info (e0 :: rest)
    let description := generate_scene_description info (e0 :: rest) characters locations
    let inferred : Option String :=
      if optTruthy info.location then info.location
      else ((e0 :: rest).find? (fun e => optTruthy e.location_id)).bind Event.location_id
    let resolved : String × List Location :=
      if optTruthy inferred then (inferred.getD "", locations)
      else
        ("location_" ++ toString (scene_index + 1),
         locations ++
           [{ id := "location_" ++ toString (scene_index + 1)
              name := "Unknown Location"
              description := some "Location details not specified" }])
    .ok ({ id := "scene_" ++ toString (scene_index + 1)
           title := title
           description := description
           start_time := e0.timestamp
           end_time := (rest.getLast?.getD e0).timestamp
           location_id := resolved.1
           events := (e0 :: rest).map Event.id
           main_characters := info.main_characters
           scene_type := info.stype
           dramatic_tension := info.tension_level }, resolved.2)

/-- The scene-creation loop of `plan_mission_scenes` (lines 34-37): create a
scene for each group in order, threading the mission's location list
through the placeholder-appending side effect. -/
def createScenes : List (SceneInfo × List Event) → List Character → List Location →
    Nat → Except String (List Scene × List Location)
  | [], _, locations, _ => .ok ([], locations)
  | (info, evs) :: rest, characters, locations, idx =>
    match create_scene_from_events idx info evs characters locations with
    | .error err => .error err
    | .ok (sc, locations') =>
      match createScenes rest characters locations' (idx + 1) with
      | .error err => .error err
      | .ok (scs, locations'') => .ok (sc :: scs, locations'')

/-- `_calculate_panels_needed` (scene_planner.py lines 353-380). -/
def calculate_panels_needed (scene : Scene) : Nat :=
  let base0 : Nat :=
    if scene.scene_type = "combat" then 3
    else if scene.scene_type = "action" then 2
    else if scene.scene_type = "dialogue" then 1
    else 1
  let base1 := base0 + (if 2 < scene.main_characters.length then 1 else 0)
  let base2 := base1 +
    (if (0.8 : ℚ) < scene.dramatic_tension then 2
     else if (0.5 : ℚ) < scene.dramatic_tension then 1 else 0)
  let base3 := base2 + (if 5 < scene.events.length then 1 else 0)
  min base3 4

/-- Python's `max(events, key=_calculate_event_tension)`: first maximal
element, `none` on the empty list (where Python raises `ValueError`). -/
def maxByTension (events : List Event) : Option Event :=
  match events with
  | [] => none
  | e :: rest =>
    some (rest.foldl
      (fun best x =>
        if calculate_event_tension best < calculate_event_tension x then x else best)
      e)

/-- `_determine_panel_type` (scene_planner.py lines 520-529). -/
def determine_panel_type (e : Event) : String :=
  match e.event_type with
  | .dialogue => "dialogue"
  | .combat => "action"
  | .action => "action"
  | .roll => "action"
  | _ => "dialogue"

/-- `_create_single_panel` (scene_planner.py lines 409-426); `none` when
`events` is empty and Python's `max` would raise. -/
def create_single_panel (scene : Scene) (events : List Event) : Option Panel :=
  (maxByTension events).map (fun key_event =>
    { id := "temp_id"
      scene_id := scene.id
      panel_number := 1
      panel_type := determine_panel_type key_event
      description := scene.description
      characters := scene.main_characters
      dialogue := truthyOrNone key_event.dialogue_content
      narration := some ("Scene: " ++ scene.title) })

/-- `_create_combat_panels` (scene_planner.py lines 428-473). -/
def create_combat_panels (scene : Scene) (events : List Event)
    (panel_count : Nat) : List Panel :=
  let setup_panel : Panel :=
    { id := "temp_id", scene_id := scene.id, panel_number := 1
      panel_type := "action", description := "Combat begins"
      characters := scene.main_characters, dialogue := none
      narration := some "The battle erupts!" }
  let combat_events := events.filter
    (fun e => e.event_type = EventType.combat ∨ e.event_type = EventType.action)
  let actionPanels : List Panel :=
    match combat_events.get? (combat_events.length / 2) with
    | some main_event =>
      [{ id := "temp_id", scene_id := scene.id, panel_number := 2
         panel_type := "action", description := main_event.description
         characters := scene.main_characters
         dialogue := main_event.dialogue_content, narration := none }]
    | none => []
  let resolutionPanels : List Panel :=
    if 3 ≤ panel_count then
      [{ id := "temp_id", scene_id := scene.id, panel_number := 3
         panel_type := "action", description := "Combat resolution"
         characters := scene.main_characters, dialogue := none
         narration := some "The dust settles..." }]
    else []
  (setup_panel :: (actionPanels ++ resolutionPanels)).take panel_count

/-- The indexed loop of `_create_dialogue_panels` (lines 482-493):
`for i in range(min(panel_count, len(dialogue_events)))`. -/
def dialoguePanelsAux (scene : Scene) : Nat → Nat → List Event → List Panel
  | 0, _, _ => []
  | _ + 1, _, [] => []
  | k + 1, i, e :: rest =>
    { id := "temp_id", scene_id := scene.id, panel_number := i + 1
      panel_type := "dialogue", description := e.description
      characters :=
        if optTruthy e.speaker_id then [e.speaker_id.getD ""]
        else scene.main_characters
      dialogue := e.dialogue_content, narration := none } ::
    dialoguePanelsAux scene k (i + 1) rest

/-- `_create_dialogue_panels` (scene_planner.py lines 475-495). -/
def create_dialogue_panels (scene : Scene) (events : List Event)
    (panel_count : Nat) : List Panel :=
  dialoguePanelsAux scene panel_count 0
    (events.filter (fun e => e.event_type = EventType.dialogue))

/-- The indexed loop of `_create_action_panels` (lines 504-516). -/
def actionPanelsAux (scene : Scene) : Nat → Nat → List Event → List Panel
  | 0, _, _ => []
  | _ + 1, _, [] => []
  | k + 1, i, e :: rest =>
    { id := "temp_id", scene_id := scene.id, panel_number := i + 1
      panel_type := "action", description := e.description
      characters := scene.main_characters
      dialogue := e.dialogue_content
      narration := some ("Action: " ++ firstSegment '.' e.description) } ::
    actionPanelsAux scene k (i + 1) rest

/-- `_create_action_panels` (scene_planner.py lines 497-518). -/
def create_action_panels (scene : Scene) (events : List Event)
    (panel_count : Nat) : List Panel :=
  actionPanelsAux scene panel_count 0
    (events.filter (fun e => e.event_type = EventType.action))

/-- `_create_panels_for_scene` (scene_planner.py lines 382-407), fed the
panel count computed by `_calculate_panels_needed`; `none` marks the
`ValueError` Python's `max` raises when a one-panel scene retrieves no
events from the mission. -/
def create_panels_for_scene (scene : Scene) (mission_events : List Event) :
    Option (List Panel) :=
  let panel_count := calculate_panels_needed scene
  let scene_events := mission_events.filter (fun e => e.id ∈ scene.events)
  if panel_count = 1 then
    (create_single_panel scene scene_events).map (fun p => [p])
  else if scene.scene_type = "combat" then
    some (create_combat_panels scene scene_events panel_count)
  else if scene.scene_type = "dialogue" then
    some (create_dialogue_panels scene scene_events panel_count)
  else
    some (create_action_panels scene scene_events panel_count)

/-- The mutable page-packing state of `_plan_comic_pages`: the pages already
closed, the currently open page, and the running page and panel counters. -/
structure PackState where
  closed : List ComicPage
  cur : Option ComicPage
  pageNum : Nat
  panelCounter : Nat
deriving DecidableEq

/-- The new-page test of `_plan_comic_pages` lines 333-335. -/
def needNewPage (cur : Option ComicPage) (scene : Scene) : Bool :=
  match cur with
  | none => true
  | some pg =>
    decide (6 ≤ pg.panels.length) ||
    (decide (4 ≤ pg.panels.length) && decide ((0.7 : ℚ) < scene.dramatic_tension))

/-- Placing one panel of `scene` (`_plan_comic_pages` lines 331-349). -/
def packPanel (missionId : String) (scene : Scene) (st : PackState)
    (panel : Panel) : PackState :=
  let st' :=
    if needNewPage st.cur scene then
      { closed := st.closed ++ st.cur.toList
        cur := some { id := "page_" ++ toString st.pageNum
                      mission_id := missionId
                      page_number := st.pageNum
                      panels := [] }
        pageNum := st.pageNum + 1
        panelCounter := st.panelCounter }
    else st
  match st'.cur with
  | some pg =>
    { st' with
      cur := some { pg with panels := pg.panels ++
        [{ panel with id := "panel_" ++ toString (st'.panelCounter + 1) }] }
      panelCounter := st'.panelCounter + 1 }
  | none => st'

/-- The scene loop of `_plan_comic_pages` (lines 324-349). -/
def packScenes (missionId : String) (mission_events : List Event) :
    List Scene → PackState → Option PackState
  | [], st => some st
  | scene :: rest, st =>
    match create_panels_for_scene scene mission_events with
    | none => none
    | some scene_panels =>
      packScenes missionId mission_events rest
        (scene_panels.foldl (packPanel missionId scene) st)

/-- `_plan_comic_pages` (scene_planner.py lines 317-351): the result is the
closed pages followed by the still-open page.  `none` marks the propagated
`ValueError` of `_create_single_panel` on an empty retrieved-event list. -/
def plan_comic_pages (scenes : List Scene) (mission_events : List Event)
    (missionId : String) : Option (List ComicPage) :=
  (packScenes missionId mission_events scenes
      { closed := [], cur := none, pageNum := 1, panelCounter := 0 }).map
    (fun st => st.closed ++ st.cur.toList)

/-- `plan_mission_scenes` (scene_planner.py lines 22-47). -/
def plan_mission_scenes (m : Mission) : Except String Mission :=
  let sorted_events := sortEvents m.events
  let scene_groups := group_events_into_scenes sorted_events
  match createScenes scene_groups m.characters m.locations 0 with
  | .error err => .error err
  | .ok (scenes, locations') =>
    match plan_comic_pages scenes m.events m.id with
    | none => .error "max() arg is an empty sequence"
    | some pages =>
      .ok { m with locations := locations', scenes := scenes, pages := pages }

deriving instance DecidableEq for Except

/-- Is an `Except` result an error? -/
def isError {α : Type} : Except String α → Bool
  | .error _ => true
  | .ok _ => false

/-- The three break conditions exactly as the specification words them:
temporal gap over the threshold, location change (only when both locations
are present), and scene-type change with the dialogue-to-action transition
suppressed. -/
def specBreakConditions (info : SceneInfo) (last e : Event) : Prop :=
  scene_break_threshold < e.timestamp - last.timestamp ∨
  (optTruthy e.location_id = true ∧ optTruthy info.location = true ∧
    e.location_id ≠ info.location) ∨
  (determine_scene_type e ≠ info.stype ∧
    ¬(info.stype = "dialogue" ∧ determine_scene_type e = "action"))

/-- The unclamped desired-panel-count formula as the specification words it:
base by scene type, +1 for more than 2 main characters, +2 for tension
above 0.8 else +1 above 0.5, +1 for more than 5 member events. -/
def specPanelRaw (s : Scene) : Nat :=
  (if s.scene_type = "combat" then 3
   else if s.scene_type = "action" then 2
   else 1)
  + (if 2 < s.main_characters.length then 1 else 0)
  + (if (0.8 : ℚ) < s.dramatic_tension then 2
     else if (0.5 : ℚ) < s.dramatic_tension then 1 else 0)
  + (if 5 < s.events.length then 1 else 0)

/-- The specification's desired panel count: the raw formula clamped to
`[1, 4]`. -/
def specPanelCount (s : Scene) : Nat :=
  min (max (specPanelRaw s) 1) 4

/-- The page-capacity property exactly as the claim words it: every packed
page holds at most 6 panels, and a page holding more than 4 panels contains
no panel whose owning scene has dramatic tension above 0.7. -/
def pagesRespectSoftCap (scenes : List Scene) (mission_events : List Event)
    (missionId : String) : Prop :=
  ∀ pages, plan_comic_pages scenes mission_events missionId = some pages →
    ∀ pg ∈ pages, pg.panels.length ≤ 6 ∧
      (4 < pg.panels.length → ∀ p ∈ pg.panels, ∀ s ∈ scenes,
        s.id = p.scene_id → s.dramatic_tension ≤ 0.7)

/-- The invariant the packer actually maintains: at most 6 panels per page,
and every panel sitting at position 5 or 6 of a page belongs to a scene
whose dramatic tension is at most 0.7. -/
def PanelTailOk (scenes : List Scene) (pg : ComicPage) : Prop :=
  pg.panels.length ≤ 6 ∧
  ∀ i : Nat, 4 ≤ i → ∀ h : i < pg.panels.length, ∀ s ∈ scenes,
    s.id = (pg.panels.get ⟨i, h⟩).scene_id → s.dramatic_tension ≤ 0.7

/-- `PanelTailOk` for every page of a packing result. -/
def allPagesTailOk (scenes : List Scene) (pages : List ComicPage) : Prop :=
  ∀ pg ∈ pages, PanelTailOk scenes pg

/-- `PanelTailOk` for every closed page and for the open page of a packing
state. -/
def StateOk (scenes : List Scene) (st : PackState) : Prop :=
  (∀ pg ∈ st.closed, PanelTailOk scenes pg) ∧
  (∀ pg ∈ st.cur.toList, PanelTailOk scenes pg)

/-! Concrete inputs used by counterexamples and witnesses. -/

/-- A plain dialogue event with no location, speaker, or dialogue line. -/
def dlgEvent (i : String) (ts : Int) : Event :=
  { id := i, timestamp := ts, event_type := .dialogue
    description := "They talk", participants := []
    location_id := none, dialogue_content := none, speaker_id := none }

/-- First event of the worked segmentation example: dialogue at 09:00 in
location A. -/
def evDialogue1 : Event :=
  { id := "e1", timestamp := 32400, event_type := .dialogue
    description := "We should rest here", participants := []
    location_id := some "A", dialogue_content := some "We should rest here"
    speaker_id := some "alice" }

/-- Second event of the worked segmentation example: dialogue at 09:10 in
location A. -/
def evDialogue2 : Event :=
  { id := "e2", timestamp := 33000, event_type := .dialogue
    description := "Agreed, we stay", participants := []
    location_id := some "A", dialogue_content := some "Agreed, we stay"
    speaker_id := some "bob" }

/-- Third event of the worked segmentation example: an action carrying the
combat keyword "attack" at 10:00 in location A. -/
def evAttack : Event :=
  { id := "e3", timestamp := 36000, event_type := .action
    description := "He attacks the goblin", participants := []
    location_id := some "A", dialogue_content := none, speaker_id := none }

/-- A dialogue event whose description contains both the high-tension
keyword "death" and the medium-tension keyword "attack". -/
def evDeathAttack : Event :=
  { id := "t1", timestamp := 0, event_type := .dialogue
    description := "death attack", participants := []
    location_id := none, dialogue_content := none, speaker_id := none }

/-- A lone roll event. -/
def rollEv : Event :=
  { id := "r1", timestamp := 0, event_type := .roll
    description := "rolls a d20", participants := []
    location_id := none, dialogue_content := none, speaker_id := none }

/-- The accumulator the Segmenter builds from the lone roll event. -/
def rollInfo : SceneInfo := absorb initInfo rollEv

/-- The scene the planner builds from the lone roll event group. -/
def rollScene : Scene :=
  match create_scene_from_events 0 rollInfo [rollEv] [] [] with
  | .ok p => p.1
  | .error _ =>
    { id := "", title := "", description := "", start_time := 0, end_time := 0
      location_id := "", events := [], main_characters := []
      scene_type := "", dramatic_tension := 0 }

/-- The allocator's output for the roll scene. -/
def c4Panels : List Panel := (create_panels_for_scene rollScene [rollEv]).getD []

/-- Low-tension dialogue scene contributing three panels. -/
def sceneA : Scene :=
  { id := "sA", title := "A", description := "A", start_time := 0, end_time := 2
    location_id := "L", events := ["a1", "a2", "a3"]
    main_characters := ["x", "y", "z"], scene_type := "dialogue"
    dramatic_tension := 0.6 }

/-- High-tension dialogue scene contributing one panel. -/
def sceneB : Scene :=
  { id := "sB", title := "B", description := "B", start_time := 3, end_time := 3
    location_id := "L", events := ["b1"]
    main_characters := [], scene_type := "dialogue"
    dramatic_tension := 0.75 }

/-- Low-tension dialogue scene contributing two panels. -/
def sceneC : Scene :=
  { id := "sC", title := "C", description := "C", start_time := 4, end_time := 5
    location_id := "L", events := ["c1", "c2"]
    main_characters := ["x", "y", "z"], scene_type := "dialogue"
    dramatic_tension := 0.6 }

/-- The scene list of the page-packing counterexample. -/
def c2Scenes : List Scene := [sceneA, sceneB, sceneC]

/-- The mission events backing the page-packing counterexample. -/
def c2Events : List Event :=
  [dlgEvent "a1" 0, dlgEvent "a2" 1, dlgEvent "a3" 2,
   dlgEvent "b1" 3, dlgEvent "c1" 4, dlgEvent "c2" 5]

/-- The pages the packer produces for the counterexample input. -/
def c2Pages : List ComicPage :=
  (plan_comic_pages c2Scenes c2Events "m").getD []

/-- The single page of the counterexample output. -/
def c2Page : ComicPage :=
  c2Pages.headD { id := "", mission_id := "", page_number := 0, panels := [] }

/-- The fourth panel of that page: it comes from the high-tension scene. -/
def c2PanelB : Panel :=
  c2Page.panels.getD 3
    { id := "", scene_id := "", panel_number := 0, panel_type := ""
      description := "", characters := [], dialogue := none, narration := none }

/-- Seven action event ids, tension 0.9: the worked panel-count example. -/
def c6Scene : Scene :=
  { id := "s6", title := "S", description := "S", start_time := 0, end_time := 6
    location_id := "L", events := ["v1", "v2", "v3", "v4", "v5", "v6", "v7"]
    main_characters := ["x"], scene_type := "action"
    dramatic_tension := 0.9 }

/-- A mission holding one location-less event. -/
def mC7 : Mission :=
  { id := "m7", characters := [], locations := []
    events := [dlgEvent "h1" 0], scenes := [], pages := [] }

/-- The placeholder location the planner synthesizes for that mission. -/
def c7GenericLoc : Location :=
  { id := "location_1", name := "Unknown Location"
    description := some "Location details not specified" }

/-- The mission `plan_mission_scenes` returns for `mC7`. -/
def c7Result : Mission :=
  match plan_mission_scenes mC7 with
  | .ok r => r
  | .error _ => mC7

/-- A mission with characters and a location but no events. -/
def mEmpty : Mission :=
  { id := "m0"
    characters := [{ id := "c1", name := "Xan" }]
    locations := [{ id := "L1", name := "Tavern", description := none }]
    events := [], scenes := [], pages := [] }

/-! Helper lemmas.  The rational-arithmetic primitives of the library are
marked irreducible; they are unsealed here so that concrete tension values
can be computed by `decide`. -/

unseal Rat.add Rat.mul Rat.sub Rat.inv Rat.ofScientific

theorem keywordBonus_eq_ite (d : String) (kws : List String) (b : ℚ) :
    keywordBonus d kws b =
      if kws.any (fun k => strContainsSub d k) then b else 0 := by
  unfold keywordBonus
  cases h : kws.find? (fun k => strContainsSub d k) with
  | none =>
    rw [if_neg]
    simp only [List.any_eq_true, not_exists, not_and]
    intro k hk
    have := List.find?_eq_none.mp h k hk
    simpa using this
  | some k =>
    rw [if_pos]
    have hmem := List.mem_of_find?_eq_some h
    have hp := List.find?_some h
    exact List.any_eq_true.mpr ⟨k, hmem, hp⟩

theorem calculate_event_tension_eq (e : Event) :
    calculate_event_tension e =
      min (baseTension e.event_type
        + (if high_tension_keywords.any
              (fun k => strContainsSub (strToLower e.description) k) then (0.3 : ℚ) else 0)
        + (if medium_tension_keywords.any
              (fun k => strContainsSub (strToLower e.description) k) then (0.2 : ℚ) else 0)
        + (if dramaticDialogue (strToLower e.description) then (0.3 : ℚ) else 0)) 1 := by
  simp only [calculate_event_tension, keywordBonus_eq_ite]

theorem baseTension_nonneg (t : EventType) : 0 ≤ baseTension t := by
  cases t <;> norm_num [baseTension]

theorem keywordBonus_nonneg (d : String) (kws : List String) (b : ℚ)
    (hb : 0 ≤ b) : 0 ≤ keywordBonus d kws b := by
  unfold keywordBonus
  cases kws.find? (fun k => strContainsSub d k) <;> simp [hb]

theorem groupAux_flatten (es : List Event) :
    ∀ cur info, ((groupAux es cur info).map Prod.snd).flatten = cur ++ es := by
  induction es with
  | nil =>
    intro cur info
    by_cases h : cur = [] <;> simp [groupAux, h]
  | cons e rest ih =>
    intro cur info
    unfold groupAux
    cases h : cur.getLast? with
    | none =>
      have hcur : cur = [] := List.getLast?_eq_none_iff.mp h
      subst hcur
      simpa using ih [e] (absorb info e)
    | some last =>
      dsimp only
      by_cases hb : shouldBreak info last e = true
      · rw [if_pos hb]
        simp only [List.map_cons, List.flatten_cons]
        rw [ih [e] (absorb initInfo e)]
        simp
      · rw [if_neg hb]
        rw [ih (cur ++ [e]) (absorb info e)]
        simp

theorem groupAux_no_empty_group (es : List Event) :
    ∀ cur info, [] ∉ (groupAux es cur info).map Prod.snd := by
  induction es with
  | nil =>
    intro cur info
    by_cases h : cur = []
    · simp [groupAux, h]
    · simp only [groupAux, if_neg h, List.map_cons, List.map_nil,
        List.mem_singleton]
      exact fun heq => h heq.symm
  | cons e rest ih =>
    intro cur info
    unfold groupAux
    cases h : cur.getLast? with
    | none => exact ih (cur ++ [e]) (absorb info e)
    | some last =>
      dsimp only
      by_cases hb : shouldBreak info last e = true
      · rw [if_pos hb]
        simp only [List.map_cons, List.mem_cons]
        rintro (heq | hmem)
        · have hne : cur ≠ [] := by
            intro hnil
            rw [hnil] at h
            simp at h
          exact hne heq.symm
        · exact ih [e] (absorb initInfo e) hmem
      · rw [if_neg hb]
        exact ih (cur ++ [e]) (absorb info e)

/-! Claim theorems. -/

/-- Claim C1: for every input event list, the Segmenter's scene groups
partition the timestamp-sorted input exactly — concatenating the member
lists of the groups, in order, reproduces the sorted input, so every event
appears in exactly one group in original relative order. -/
theorem c1_segmenter_partitions_input (events : List Event) :
    ((group_events_into_scenes (sortEvents events)).map Prod.snd).flatten
      = sortEvents events := by
  simpa [group_events_into_scenes] using
    groupAux_flatten (sortEvents events) [] initInfo

/-- Claim C9: building a scene from an event group errors exactly when the
group is empty, and the Segmenter never emits an empty group, so the
failure is unreachable from the Segmenter's output. -/
theorem c9_empty_group_rejection :
    (∀ (idx : Nat) (info : SceneInfo) (evs : List Event)
       (chars : List Character) (locs : List Location),
       isError (create_scene_from_events idx info evs chars locs) = true ↔
         evs = []) ∧
    (∀ es : List Event, [] ∉ (group_events_into_scenes es).map Prod.snd) := by
  constructor
  · intro idx info evs chars locs
    cases evs with
    | nil => simp [create_scene_from_events, isError]
    | cons e0 rest =>
      have hok : isError (create_scene_from_events idx info (e0 :: rest)
          chars locs) = false := rfl
      rw [hok]
      simp
  · intro es
    exact groupAux_no_empty_group es [] initInfo

/-- Claim C8: the Tension Scorer returns a value in the interval `[0, 1]`
for every event; being a pure function of the event, repeated calls are
identical by construction. -/
theorem c8_tension_in_unit_interval (e : Event) :
    0 ≤ calculate_event_tension e ∧ calculate_event_tension e ≤ 1 := by
  unfold calculate_event_tension
  constructor
  · apply le_min _ (by norm_num)
    have h1 := baseTension_nonneg e.event_type
    have h2 := keywordBonus_nonneg (strToLower e.description) high_tension_keywords
      (0.3 : ℚ) (by norm_num)
    have h3 := keywordBonus_nonneg (strToLower e.description) medium_tension_keywords
      (0.2 : ℚ) (by norm_num)
    have h4 : (0 : ℚ) ≤ if dramaticDialogue (strToLower e.description) then 0.3 else 0 := by
      split <;> norm_num
    linarith
  · exact min_le_right _ _

/-- Claim C3 counterexample: an event whose description contains both the
high-tension keyword "death" and the medium-tension keyword "attack"
receives both bonuses — its tension is base 0.2 + 0.3 + 0.2 = 0.7, not the
0.2 + 0.3 = 0.5 the claim predicts. -/
theorem c3_counterexample :
    calculate_event_tension evDeathAttack = 0.2 + 0.3 + 0.2 ∧
    calculate_event_tension evDeathAttack ≠ 0.2 + 0.3 := by
  constructor <;> decide

/-- Claim C3 amended: the high-tension +0.3 bonus and the medium-tension
+0.2 bonus are each applied at most once, but independently of one
another — an event matching keywords of both categories receives both
bonuses (the dialogue-distress +0.3 is likewise independent), and the sum
is clamped at 1. -/
theorem c3_amended_bonuses_independent (e : Event) :
    calculate_event_tension e =
      min (baseTension e.event_type
        + (if high_tension_keywords.any
              (fun k => strContainsSub (strToLower e.description) k) then (0.3 : ℚ) else 0)
        + (if medium_tension_keywords.any
              (fun k => strContainsSub (strToLower e.description) k) then (0.2 : ℚ) else 0)
        + (if dramaticDialogue (strToLower e.description) then (0.3 : ℚ) else 0)) 1 :=
  calculate_event_tension_eq e

/-- Claim C5: with a non-empty accumulator, the Segmenter breaks before
absorbing an event exactly when the 30-minute gap, the location change, or
the type change (with dialogue-to-action suppressed) fires; on the worked
three-event example this yields two scenes, the second containing only the
combat-keyword event with scene type combat. -/
theorem c5_break_conditions :
    (∀ (info : SceneInfo) (last e : Event),
       shouldBreak info last e = true ↔ specBreakConditions info last e) ∧
    (group_events_into_scenes [evDialogue1, evDialogue2, evAttack]).map
        (fun g => (g.1.stype, g.2.map Event.id)) =
      [("dialogue", ["e1", "e2"]), ("combat", ["e3"])] := by
  constructor
  · intro info last e
    simp only [shouldBreak, specBreakConditions, Bool.or_eq_true,
      Bool.and_eq_true, decide_eq_true_eq, Bool.not_eq_true',
      Bool.and_eq_false_iff, beq_eq_false_iff_ne, ne_eq]
    tauto
  · decide

/-- Claim C6: for every scene the computed desired panel count equals the
specification's formula (base by type, +1 for more than 2 characters,
+2/+1 by tension threshold, +1 for more than 5 events, clamped to
`[1, 4]`); on the worked example (action scene, tension 0.9, 7 events) the
raw formula yields 5 and the computed count is the clamp 4. -/
theorem c6_panel_count_formula :
    (∀ s : Scene, calculate_panels_needed s = specPanelCount s) ∧
    calculate_panels_needed c6Scene = 4 ∧ specPanelRaw c6Scene = 5 := by
  refine ⟨?_, by decide, by decide⟩
  intro s
  simp only [calculate_panels_needed, specPanelCount, specPanelRaw]
  split_ifs <;> omega

theorem dialoguePanelsAux_length (scene : Scene) :
    ∀ (k i : Nat) (evs : List Event),
      (dialoguePanelsAux scene k i evs).length ≤ k := by
  intro k
  induction k with
  | zero => intro i evs; simp [dialoguePanelsAux]
  | succ n ih =>
    intro i evs
    cases evs with
    | nil => simp [dialoguePanelsAux]
    | cons e rest =>
      have := ih (i + 1) rest
      simp only [dialoguePanelsAux, List.length_cons]
      omega

theorem actionPanelsAux_length (scene : Scene) :
    ∀ (k i : Nat) (evs : List Event),
      (actionPanelsAux scene k i evs).length ≤ k := by
  intro k
  induction k with
  | zero => intro i evs; simp [actionPanelsAux]
  | succ n ih =>
    intro i evs
    cases evs with
    | nil => simp [actionPanelsAux]
    | cons e rest =>
      have := ih (i + 1) rest
      simp only [actionPanelsAux, List.length_cons]
      omega

theorem calculate_panels_needed_le_four (s : Scene) :
    calculate_panels_needed s ≤ 4 :=
  Nat.min_le_right _ 4

/-- Claim C4 counterexample: the Segmenter turns a lone roll event into an
action-typed group, the scene built from that group is well formed, and the
Panel Allocator returns zero panels for it (the action branch finds no
action-kind events, and the computed panel count 2 bypasses the
single-panel branch). -/
theorem c4_counterexample :
    group_events_into_scenes [rollEv] = [(rollInfo, [rollEv])] ∧
    (create_scene_from_events 0 rollInfo [rollEv] [] []).map
        (fun p => create_panels_for_scene p.1 [rollEv]) =
      .ok (some ([] : List Panel)) := by
  constructor <;> decide

/-- Claim C4 amended: the number of panels the allocator returns for a
scene never exceeds 4, but it can be 0 — the documented lower bound 1 fails
(for example on an action-typed scene whose members are all roll events). -/
theorem c4_amended_panel_budget (scene : Scene) (mission_events : List Event)
    (panels : List Panel)
    (h : create_panels_for_scene scene mission_events = some panels) :
    panels.length ≤ 4 := by
  have hle := calculate_panels_needed_le_four scene
  unfold create_panels_for_scene at h
  by_cases h1 : calculate_panels_needed scene = 1
  · rw [if_pos h1] at h
    obtain ⟨p, _, rfl⟩ := Option.map_eq_some'.mp h
    simp
  · rw [if_neg h1] at h
    by_cases h2 : scene.scene_type = "combat"
    · rw [if_pos h2] at h
      obtain rfl := Option.some.inj h
      exact le_trans (List.length_take_le _ _) hle
    · rw [if_neg h2] at h
      by_cases h3 : scene.scene_type = "dialogue"
      · rw [if_pos h3] at h
        obtain rfl := Option.some.inj h
        exact le_trans (dialoguePanelsAux_length _ _ _ _) hle
      · rw [if_neg h3] at h
        obtain rfl := Option.some.inj h
        exact le_trans (actionPanelsAux_length _ _ _ _) hle

/-- Witness for the amended C4 bound at the roll-scene input. -/
theorem c4_amended_panel_budget_witness : c4Panels.length ≤ 4 :=
  c4_amended_panel_budget rollScene [rollEv] c4Panels rfl

theorem create_scene_locations_extend (idx : Nat) (info : SceneInfo)
    (evs : List Event) (chars : List Character) (locs : List Location)
    (sc : Scene) (locs' : List Location)
    (h : create_scene_from_events idx info evs chars locs = .ok (sc, locs')) :
    ∃ added, locs' = locs ++ added := by
  cases evs with
  | nil => simp [create_scene_from_events] at h
  | cons e0 rest =>
    simp only [create_scene_from_events] at h
    cases h
    split <;> (try split) <;>
      first
      | exact ⟨[], (List.append_nil _).symm⟩
      | exact ⟨[_], rfl⟩

theorem createScenes_locations_extend :
    ∀ (groups : List (SceneInfo × List Event)) (chars : List Character)
      (locs : List Location) (idx : Nat) (scs : List Scene)
      (locs'' : List Location),
      createScenes groups chars locs idx = .ok (scs, locs'') →
      ∃ added, locs'' = locs ++ added := by
  intro groups
  induction groups with
  | nil =>
    intro chars locs idx scs locs'' h
    simp only [createScenes] at h
    cases h
    exact ⟨[], by simp⟩
  | cons g rest ih =>
    intro chars locs idx scs locs'' h
    obtain ⟨info, evs⟩ := g
    simp only [createScenes] at h
    cases hc : create_scene_from_events idx info evs chars locs with
    | error err => rw [hc] at h; cases h
    | ok p =>
      obtain ⟨sc, locs'⟩ := p
      rw [hc] at h
      dsimp only at h
      cases hr : createScenes rest chars locs' (idx + 1) with
      | error err => rw [hr] at h; dsimp only at h; cases h
      | ok q =>
        obtain ⟨scs', locsEnd⟩ := q
        rw [hr] at h
        dsimp only at h
        cases h
        obtain ⟨a1, ha1⟩ := create_scene_locations_extend _ _ _ _ _ _ _ hc
        obtain ⟨a2, ha2⟩ := ih chars locs' (idx + 1) _ _ hr
        exact ⟨a1 ++ a2, by rw [ha2, ha1, List.append_assoc]⟩

/-- Claim C7 counterexample: planning a mission whose single event names no
location appends a synthesized placeholder location to the mission's
location collection, so the Location collection is not left unchanged. -/
theorem c7_counterexample :
    (plan_mission_scenes mC7).map Mission.locations = .ok [c7GenericLoc] ∧
    mC7.locations = [] ∧ ([c7GenericLoc] : List Location) ≠ [] := by
  refine ⟨by decide, by decide, by decide⟩

/-- Claim C7 amended: planning leaves the mission's Character and Event
collections (and its id) unchanged, and leaves the original Location list
as a prefix of the resulting one — it is extended only by synthesized
placeholder locations for scenes that had none. -/
theorem c7_amended_frame (m m' : Mission)
    (h : plan_mission_scenes m = .ok m') :
    m'.characters = m.characters ∧ m'.events = m.events ∧ m'.id = m.id ∧
    ∃ added : List Location, m'.locations = m.locations ++ added := by
  simp only [plan_mission_scenes] at h
  cases hcs : createScenes (group_events_into_scenes (sortEvents m.events))
      m.characters m.locations 0 with
  | error err => rw [hcs] at h; cases h
  | ok p =>
    obtain ⟨scenes, locs'⟩ := p
    rw [hcs] at h
    dsimp only at h
    cases hpg : plan_comic_pages scenes m.events m.id with
    | none => rw [hpg] at h; dsimp only at h; cases h
    | some pages =>
      rw [hpg] at h
      dsimp only at h
      cases h
      refine ⟨rfl, rfl, rfl, ?_⟩
      exact createScenes_locations_extend _ _ _ _ _ _ hcs

/-- Witness for the amended C7 frame property at the concrete mission. -/
theorem c7_amended_frame_witness :
    c7Result.characters = mC7.characters ∧ c7Result.events = mC7.events ∧
    c7Result.id = mC7.id ∧
    ∃ added : List Location, c7Result.locations = mC7.locations ++ added :=
  c7_amended_frame mC7 c7Result rfl

/-- Claim C10: planning a mission with an empty event list succeeds and
returns the mission with empty scene and page lists, leaving every other
collection unchanged. -/
theorem c10_empty_mission (m : Mission) (h : m.events = []) :
    plan_mission_scenes m = .ok { m with scenes := [], pages := [] } := by
  unfold plan_mission_scenes
  rw [h]
  rfl

/-- Witness for C10 at a concrete mission with characters and a location
but no events. -/
theorem c10_empty_mission_witness :
    plan_mission_scenes mEmpty = .ok { mEmpty with scenes := [], pages := [] } :=
  c10_empty_mission mEmpty rfl

theorem dialoguePanelsAux_scene_id (scene : Scene) :
    ∀ (k i : Nat) (evs : List Event) (p : Panel),
      p ∈ dialoguePanelsAux scene k i evs → p.scene_id = scene.id := by
  intro k
  induction k with
  | zero => intro i evs p hp; simp [dialoguePanelsAux] at hp
  | succ n ih =>
    intro i evs p hp
    cases evs with
    | nil => simp [dialoguePanelsAux] at hp
    | cons e rest =>
      simp only [dialoguePanelsAux, List.mem_cons] at hp
      rcases hp with rfl | hp
      · rfl
      · exact ih (i + 1) rest p hp

theorem actionPanelsAux_scene_id (scene : Scene) :
    ∀ (k i : Nat) (evs : List Event) (p : Panel),
      p ∈ actionPanelsAux scene k i evs → p.scene_id = scene.id := by
  intro k
  induction k with
  | zero => intro i evs p hp; simp [actionPanelsAux] at hp
  | succ n ih =>
    intro i evs p hp
    cases evs with
    | nil => simp [actionPanelsAux] at hp
    | cons e rest =>
      simp only [actionPanelsAux, List.mem_cons] at hp
      rcases hp with rfl | hp
      · rfl
      · exact ih (i + 1) rest p hp

theorem create_combat_panels_scene_id (scene : Scene) (events : List Event)
    (pc : Nat) : ∀ p ∈ create_combat_panels scene events pc,
      p.scene_id = scene.id := by
  intro p hp
  unfold create_combat_panels at hp
  have hp' := List.mem_of_mem_take hp
  simp only [List.mem_cons, List.mem_append] at hp'
  rcases hp' with rfl | h | h
  · rfl
  · revert h
    split
    · intro h
      simp only [List.mem_singleton] at h
      subst h
      rfl
    · intro h
      simp at h
  · revert h
    split
    · intro h
      simp only [List.mem_singleton] at h
      subst h
      rfl
    · intro h
      simp at h

theorem create_panels_scene_id (scene : Scene) (mission_events : List Event)
    (panels : List Panel)
    (h : create_panels_for_scene scene mission_events = some panels) :
    ∀ p ∈ panels, p.scene_id = scene.id := by
  unfold create_panels_for_scene at h
  by_cases h1 : calculate_panels_needed scene = 1
  · rw [if_pos h1] at h
    obtain ⟨p, hp, rfl⟩ := Option.map_eq_some'.mp h
    obtain ⟨ke, _, rfl⟩ := Option.map_eq_some'.mp hp
    intro q hq
    simp only [List.mem_singleton] at hq
    subst hq
    rfl
  · rw [if_neg h1] at h
    by_cases h2 : scene.scene_type = "combat"
    · rw [if_pos h2] at h
      obtain rfl := Option.some.inj h
      exact create_combat_panels_scene_id scene _ _
    · rw [if_neg h2] at h
      by_cases h3 : scene.scene_type = "dialogue"
      · rw [if_pos h3] at h
        obtain rfl := Option.some.inj h
        exact fun p hp => dialoguePanelsAux_scene_id scene _ _ _ p hp
      · rw [if_neg h3] at h
        obtain rfl := Option.some.inj h
        exact fun p hp => actionPanelsAux_scene_id scene _ _ _ p hp

theorem panelTailOk_append (scenes : List Scene) (pg : ComicPage) (p : Panel)
    (hlen : pg.panels.length < 6) (hok : PanelTailOk scenes pg)
    (hnew : 4 ≤ pg.panels.length →
      ∀ s ∈ scenes, s.id = p.scene_id → s.dramatic_tension ≤ 0.7) :
    PanelTailOk scenes { pg with panels := pg.panels ++ [p] } := by
  constructor
  · simp only [List.length_append, List.length_cons, List.length_nil]
    omega
  · intro i hi4 hlt s hs hsid
    simp only [List.length_append, List.length_cons, List.length_nil] at hlt
    by_cases hi : i < pg.panels.length
    · have hget : ({ pg with panels := pg.panels ++ [p] } : ComicPage).panels.get
          ⟨i, by simpa using hlt⟩ = pg.panels.get ⟨i, hi⟩ := by
        simp [List.getElem_append_left hi]
      rw [hget] at hsid
      exact hok.2 i hi4 hi s hs hsid
    · have hieq : i = pg.panels.length := by omega
      have hget : ({ pg with panels := pg.panels ++ [p] } : ComicPage).panels.get
          ⟨i, by simpa using hlt⟩ = p := by
        simp only [List.get_eq_getElem]
        exact List.getElem_concat_length _ _ _ hieq _
      rw [hget] at hsid
      exact hnew (by omega) s hs hsid

theorem packPanel_stateOk (scenes : List Scene) (mid : String) (scene : Scene)
    (st : PackState) (panel : Panel)
    (hmem : scene ∈ scenes) (hnodup : (scenes.map Scene.id).Nodup)
    (hpid : panel.scene_id = scene.id) (hst : StateOk scenes st) :
    StateOk scenes (packPanel mid scene st panel) := by
  obtain ⟨hclosed, hcur⟩ := hst
  by_cases hn : needNewPage st.cur scene = true
  · simp only [packPanel, if_pos hn]
    constructor
    · intro pg hpg
      rcases List.mem_append.mp hpg with h1 | h1
      · exact hclosed pg h1
      · exact hcur pg h1
    · intro pg hpg
      simp only [Option.toList_some, List.mem_singleton] at hpg
      subst hpg
      refine ⟨by simp, ?_⟩
      intro i hi4 hlt
      exfalso
      simp only [List.nil_append, List.length_cons, List.length_nil] at hlt
      omega
  · have hn' : needNewPage st.cur scene = false := by
      simpa using hn
    simp only [packPanel, if_neg hn]
    cases hc : st.cur with
    | none =>
      rw [hc] at hn'
      simp [needNewPage] at hn'
    | some pg =>
      dsimp only
      have hfacts : pg.panels.length < 6 ∧
          (pg.panels.length < 4 ∨ ¬ ((0.7 : ℚ) < scene.dramatic_tension)) := by
        rw [hc] at hn'
        simpa only [needNewPage, Bool.or_eq_false_iff, Bool.and_eq_false_iff,
          decide_eq_false_iff_not, not_le] using hn'
      constructor
      · intro q hq
        exact hclosed q hq
      · intro q hq
        simp only [Option.toList_some, List.mem_singleton] at hq
        subst hq
        have hpgOk : PanelTailOk scenes pg := hcur pg (by rw [hc]; simp)
        refine panelTailOk_append scenes pg _ hfacts.1 hpgOk ?_
        intro h4 s hs hsid
        have hsid' : s.id = scene.id := by
          simpa [hpid] using hsid
        have hseq : s = scene :=
          List.inj_on_of_nodup_map hnodup hs hmem hsid'
        subst hseq
        rcases hfacts.2 with hlt4 | hten
        · omega
        · exact not_lt.mp hten

theorem foldl_packPanel_stateOk (scenes : List Scene) (mid : String)
    (scene : Scene) (hmem : scene ∈ scenes)
    (hnodup : (scenes.map Scene.id).Nodup) :
    ∀ (panels : List Panel) (st : PackState),
      (∀ p ∈ panels, p.scene_id = scene.id) → StateOk scenes st →
      StateOk scenes (panels.foldl (packPanel mid scene) st) := by
  intro panels
  induction panels with
  | nil => intro st _ hst; simpa using hst
  | cons p rest ih =>
    intro st hpid hst
    simp only [List.foldl_cons]
    exact ih _ (fun q hq => hpid q (List.mem_cons_of_mem _ hq))
      (packPanel_stateOk scenes mid scene st p hmem hnodup
        (hpid p (List.mem_cons_self _ _)) hst)

theorem packScenes_stateOk (scenes : List Scene) (mid : String)
    (mission_events : List Event) (hnodup : (scenes.map Scene.id).Nodup) :
    ∀ (todo : List Scene), (∀ s ∈ todo, s ∈ scenes) →
      ∀ (st st' : PackState), StateOk scenes st →
        packScenes mid mission_events todo st = some st' →
        StateOk scenes st' := by
  intro todo
  induction todo with
  | nil =>
    intro _ st st' hst h
    simp only [packScenes] at h
    cases h
    exact hst
  | cons scene rest ih =>
    intro hsub st st' hst h
    simp only [packScenes] at h
    cases hcp : create_panels_for_scene scene mission_events with
    | none => rw [hcp] at h; cases h
    | some panels =>
      rw [hcp] at h
      dsimp only at h
      exact ih (fun s hs => hsub s (List.mem_cons_of_mem _ hs)) _ st'
        (foldl_packPanel_stateOk scenes mid scene
          (hsub scene (List.mem_cons_self _ _)) hnodup panels st
          (create_panels_scene_id scene mission_events panels hcp) hst) h

/-- Claim C2 counterexample: for the three-scene input `c2Scenes` the
packer emits a single 6-panel page whose fourth panel belongs to the scene
with dramatic tension 0.75 > 0.7, refuting "any page with more than 4
panels contains no panel from a scene with tension above 0.7". -/
theorem c2_counterexample : ¬ pagesRespectSoftCap c2Scenes c2Events "m" := by
  intro h
  have h1 := h c2Pages rfl c2Page (by decide)
  have h2 := h1.2 (by decide) c2PanelB (by decide) sceneB (by decide) (by decide)
  exact absurd h2 (by decide)

/-- Claim C2 amended: every packed page holds at most 6 panels, and (for
scene lists with distinct scene ids) every panel at position 5 or 6 of a
page belongs to a scene with dramatic tension at most 0.7 — the packer
never appends a high-tension panel to a page already holding 4 panels, but
a high-tension panel placed earlier can sit on a page that later grows
beyond 4 panels. -/
theorem c2_amended_soft_cap (scenes : List Scene) (mission_events : List Event)
    (mid : String) (pages : List ComicPage)
    (hnodup : (scenes.map Scene.id).Nodup)
    (hplan : plan_comic_pages scenes mission_events mid = some pages) :
    allPagesTailOk scenes pages := by
  unfold plan_comic_pages at hplan
  cases hps : packScenes mid mission_events scenes
      { closed := [], cur := none, pageNum := 1, panelCounter := 0 } with
  | none => rw [hps] at hplan; cases hplan
  | some st =>
    rw [hps] at hplan
    simp only [Option.map_some'] at hplan
    cases hplan
    have hinit : StateOk scenes
        { closed := [], cur := none, pageNum := 1, panelCounter := 0 } := by
      constructor
      · intro pg hpg
        simp at hpg
      · intro pg hpg
        simp at hpg
    have hst : StateOk scenes st :=
      packScenes_stateOk scenes mid mission_events hnodup scenes
        (fun s hs => hs) _ st hinit hps
    intro pg hpg
    rcases List.mem_append.mp hpg with h | h
    · exact hst.1 pg h
    · exact hst.2 pg h

/-- Witness for the amended C2 invariant at the concrete counterexample
input. -/
theorem c2_amended_soft_cap_witness : allPagesTailOk c2Scenes c2Pages :=
  c2_amended_soft_cap c2Scenes c2Events "m" c2Pages (by decide) rfl
